import Mathlib

/-!
Verification of the Telegram ↔ Notion assistant bot (`src/app.py`).

The development shallowly embeds the pure content of the bot's functions:
strings are Lean `String`s (Python code-point slicing `s[:n]` becomes a
`take` on the underlying character list), Python `dict` session storage
becomes a record of `Option` fields (a `none` field models an absent key),
the remote Notion store is modelled either as an explicit state (for the
catalog-creation claims) or as an oracle of pure query functions (for the
conversation state machine, whose handlers only consume query results
within a single step).  A handler that can raise `KeyError` is modelled as
returning `none`.
-/

namespace App

/-- The characters Python's `str.strip()` removes (ASCII whitespace). -/
def pyIsSpace (c : Char) : Bool :=
  c = ' ' || c = '\t' || c = '\n' || c = '\x0d' || c = '\x0b' || c = '\x0c'

/-- Strip characters satisfying `p` from both ends of a character list. -/
def stripCharsList (p : Char → Bool) (l : List Char) : List Char :=
  ((l.dropWhile p).reverse.dropWhile p).reverse

/-- Python `s.strip()` (whitespace, both ends). -/
def pyStrip (s : String) : String :=
  String.mk (stripCharsList pyIsSpace s.data)

/-- Python `s.strip("# ")`: strip `'#'` and `' '` from both ends. -/
def pyStripHashSpace (s : String) : String :=
  String.mk (stripCharsList (fun c => c = '#' || c = ' ') s.data)

/-- Python `s.lower()` (ASCII letters; the inputs of interest are ASCII). -/
def pyLower (s : String) : String :=
  String.mk (s.data.map Char.toLower)

/-- Python code-point slice `s[:n]`. -/
def pyTake (s : String) (n : Nat) : String :=
  String.mk (s.data.take n)

/-- Python truthiness-based `a or b` for strings (`"" or b = b`). -/
def pyOrStr (a b : String) : String :=
  if a = "" then b else a

/-- Python truthiness of an optional string (`None` and `""` are falsy). -/
def pyTruthy (o : Option String) : Bool :=
  match o with
  | some s => s ≠ ""
  | none => false

/-- Python `opt.get(k) or d` where the stored value is an optional string. -/
def pyOrOpt (o : Option String) (d : String) : String :=
  match o with
  | some s => if s = "" then d else s
  | none => d

/-- Value of a decimal digit string (the guarded uses are nonempty all-digit). -/
def digitsVal (l : List Char) : Nat :=
  l.foldl (fun acc c => acc * 10 + (c.toNat - '0'.toNat)) 0

/-- `parse_duration` (src/app.py:283): `"\d+:\d{1,2}"` as hours:minutes,
else the prefix regex `(?:(\d+)\s*h)?\s*(\d+)?\s*m?`, else bare digits;
`none` models the raised `ValueError`. -/
def parse_duration (s0 : String) : Option Nat :=
  let s := pyLower (pyStrip s0)
  let cs := s.data
  let d1 := cs.takeWhile Char.isDigit
  let afterD1 := cs.drop d1.length
  -- full match of `\d+:\d{1,2}` → split on ':' and return h*60+m
  if d1 ≠ [] ∧ afterD1.head? = some ':' ∧
      (afterD1.tail ≠ [] ∧ afterD1.tail.length ≤ 2 ∧ afterD1.tail.all Char.isDigit) then
    some (digitsVal d1 * 60 + digitsVal afterD1.tail)
  else
    -- prefix match of `(?:(\d+)\s*h)?\s*(\d+)?\s*m?`
    let sp1 := afterD1.dropWhile pyIsSpace
    let g1ok := d1 ≠ [] ∧ sp1.head? = some 'h'
    let rest := if g1ok then sp1.tail else cs
    let g2 := (rest.dropWhile pyIsSpace).takeWhile Char.isDigit
    if g1ok ∨ g2 ≠ [] then
      some ((if g1ok then digitsVal d1 else 0) * 60 + digitsVal g2)
    else if cs ≠ [] ∧ cs.all Char.isDigit then
      some (digitsVal cs)
    else
      none

/-- Python regex `\w` on the ASCII range (letters, digits, underscore). -/
def pyIsWordChar (c : Char) : Bool :=
  c.isAlphanum || c = '_'

/-- Scanner for `re.findall(r"#\w+", text)`, as a left-to-right automaton:
`acc` holds the reversed current candidate token (`[]` when outside one,
`['#']` after a bare `'#'`); a candidate is emitted when it has gathered at
least one word character after its `'#'`. -/
def hashtagGo : List Char → List Char → List String
  | [], acc => if acc.length ≥ 2 then [String.mk acc.reverse] else []
  | c :: rest, acc =>
    if acc = [] then
      if c = '#' then hashtagGo rest ['#'] else hashtagGo rest []
    else if pyIsWordChar c then
      hashtagGo rest (c :: acc)
    else
      let out := hashtagGo rest (if c = '#' then ['#'] else [])
      if acc.length ≥ 2 then String.mk acc.reverse :: out else out

/-- `parse_hashtags` (src/app.py:403): `re.findall(r"#\w+", text)[:10]`
(word characters restricted to the ASCII range used by the claims). -/
def parse_hashtags (text : String) : List String :=
  (hashtagGo text.data []).take 10

/-- Loop body of `_safe_multi_select` (src/app.py:164): `seen` is the set of
already-kept normalized tags; emission stops once ten names are collected. -/
def smsGo : List String → List String → List String
  | [], _ => []
  | t :: rest, seen =>
    let k := pyLower (pyStripHashSpace t)
    if k = "" then smsGo rest seen
    else if k ∈ seen then smsGo rest seen
    else if seen.length + 1 ≥ 10 then [pyTake k 50]
    else pyTake k 50 :: smsGo rest (k :: seen)

/-- `_safe_multi_select` (src/app.py:164), as the list of emitted tag names
(each emitted dict is `{"name": t[:50]}`). -/
def safe_multi_select (tags : List String) : List String :=
  smsGo tags []

/-- `CatalogNode` (src/app.py:101). -/
structure CatalogNode where
  id : String
  name : String
  level : String
  parent_id : Option String
deriving DecidableEq, Repr

/-- Case-insensitive name comparison, the sort key of `find_nodes`
(src/app.py:124, `key=lambda x: x.name.lower()`). -/
def nodeNameLE (a b : CatalogNode) : Prop :=
  pyLower a.name ≤ pyLower b.name

instance : DecidableRel nodeNameLE := fun a b =>
  inferInstanceAs (Decidable (pyLower a.name ≤ pyLower b.name))

instance : IsTotal CatalogNode nodeNameLE :=
  ⟨fun a b => le_total (pyLower a.name) (pyLower b.name)⟩

instance : IsTrans CatalogNode nodeNameLE :=
  ⟨fun _ _ _ hab hbc => le_trans hab hbc⟩

/-- The local computation of `find_nodes` (src/app.py:119): sort the pages
returned by the remote query ascending by case-insensitive name.  Python's
`sorted` is a stable sort by this key; a stable sort is extensionally
unique, so the stable `insertionSort` denotes it. -/
def find_nodes_sort (results : List CatalogNode) : List CatalogNode :=
  List.insertionSort nodeNameLE results

/-! ### Remote catalog store model, for the node-resolution claims

`NStore` models the catalog database: `nextId` is the remote id allocator
(Notion assigns a fresh id to every created page), `created` the pages in
creation order, `queries` counts issued `/query` requests. -/

structure NStore where
  nextId : Nat
  created : List (Nat × String × String × Option String)
  queries : Nat
deriving DecidableEq, Repr

/-- Result record of a catalog operation (the `CatalogNode` the code builds,
with the remote-assigned numeric id of the store model). -/
structure NodeRec where
  id : Nat
  name : String
  level : String
  parent_id : Option String
deriving DecidableEq, Repr

/-- `find_by_name_exact` (src/app.py:126): one remote query filtered by
exact title, returning the first created page of that name, if any.
(Defined because the source defines it; `ensure_node` below never calls it,
exactly as in the source.) -/
def find_by_name_exact (name : String) (st : NStore) :
    Option NodeRec × NStore :=
  let hit := st.created.find? (fun p => p.2.1 = name)
  (hit.map (fun p => ⟨p.1, p.2.1, p.2.2.1, p.2.2.2⟩),
   { st with queries := st.queries + 1 })

/-- `ensure_node` (src/app.py:132): builds the create payload from `name`,
`level` and the optional `parent_id` and unconditionally issues one
`POST /pages`; no lookup of any kind precedes the create (the source's own
comment says it is "simpler to create a new one"). -/
def ensure_node (name level : String) (parent_id : Option String)
    (st : NStore) : NodeRec × NStore :=
  (⟨st.nextId, name, level, parent_id⟩,
   { nextId := st.nextId + 1
     created := st.created ++ [(st.nextId, name, level, parent_id)]
     queries := st.queries })

/-! ### Note creation (`create_note`, src/app.py:199) -/

/-- A buffered file reference: the dicts the capture handler appends are
`{"name": n, "type": "external", "external": {"url": u}}`. -/
structure NFile where
  name : String
  url : String
deriving DecidableEq, Repr

/-- Python `str.splitlines` boundary characters (the ASCII ones plus the
Unicode line and paragraph separators). -/
def pyIsLineBreak (c : Char) : Bool :=
  c = '\n' || c = '\x0d' || c = '\x0b' || c = '\x0c' ||
  c = '\x1c' || c = '\x1d' || c = '\x1e' || c = '\x85' ||
  c = ' ' || c = ' '

/-- Core of Python `str.splitlines`: `acc` is the reversed current line and
`afterCR` records that the previous character was `'\r'`, so that the
`'\n'` of a `"\r\n"` pair is consumed without emitting an extra empty
line; no trailing empty line is produced. -/
def splitlinesGo : List Char → List Char → Bool → List String
  | [], acc, _ => if acc = [] then [] else [String.mk acc.reverse]
  | c :: rest, acc, afterCR =>
    if c = '\n' ∧ afterCR then splitlinesGo rest [] false
    else if pyIsLineBreak c then
      String.mk acc.reverse :: splitlinesGo rest [] (c = '\x0d')
    else
      splitlinesGo rest (c :: acc) false

/-- Python `s.splitlines()`. -/
def pySplitlines (s : String) : List String :=
  splitlinesGo s.data [] false

/-- A child block built by `_build_children_blocks` (src/app.py:176). -/
inductive NBlock
  | paragraph (text : String)
  | image (url : String)
  | file (url : String)
deriving DecidableEq, Repr

/-- The image-extension test of src/app.py:187:
`url.lower().endswith((".jpg",".jpeg",".png",".gif",".webp",".bmp",".svg"))`. -/
def isImageUrl (url : String) : Bool :=
  [".jpg", ".jpeg", ".png", ".gif", ".webp", ".bmp", ".svg"].any
    (fun ext => ext.data.isSuffixOf (pyLower url).data)

/-- `_build_children_blocks` (src/app.py:176): one paragraph holding the
truncated text (when nonempty), then one image or file block per attached
file that has a url. -/
def build_children_blocks (text : String) (files : List NFile) : List NBlock :=
  (if text ≠ "" then [NBlock.paragraph (pyTake text 1800)] else []) ++
  files.filterMap (fun f =>
    if f.url = "" then none
    else if isImageUrl f.url then some (NBlock.image f.url)
    else some (NBlock.file f.url))

/-- A Notion page property value, as submitted by `create_note`. -/
inductive PropVal
  | title (s : String)
  | richText (s : String)
  | emptyRich
  | multiSelect (names : List String)
  | created
  | relation (id : String)
  | url (s : String)
  | files (fs : List NFile)
deriving DecidableEq, Repr

/-- The tree-relation ids passed to `create_note` (the `ids` dict argument;
`none` models both an absent key and a `None` value, which `ids.get`
conflates). -/
structure NoteIdsArg where
  cat : Option String
  sub : Option String
  topic : Option String
  subtopic : Option String
deriving DecidableEq, Repr

/-- The `props` dict of `create_note` (src/app.py:207-217) in insertion
order, before the `Files` key is added. -/
def note_base_props (title text : String) (tags : List String)
    (ids : NoteIdsArg) (source : Option String) : List (String × PropVal) :=
  [("Name", PropVal.title (pyOrStr (pyTake title 200) "Нотатка")),
   ("Text", if text ≠ "" then PropVal.richText (pyTake text 1800)
            else PropVal.emptyRich),
   ("Tags", PropVal.multiSelect (safe_multi_select tags)),
   ("Created", PropVal.created)] ++
  (if pyTruthy ids.cat then [("Category", PropVal.relation (ids.cat.getD ""))] else []) ++
  (if pyTruthy ids.sub then [("Subcategory", PropVal.relation (ids.sub.getD ""))] else []) ++
  (if pyTruthy ids.topic then [("Topic", PropVal.relation (ids.topic.getD ""))] else []) ++
  (if pyTruthy ids.subtopic then [("Subtopic", PropVal.relation (ids.subtopic.getD ""))] else []) ++
  (match source with
   | some s => [("Source", PropVal.url s)]
   | none => [])

/-- The properties dict at the moment a create request is issued: when
`files` is nonempty, `payload["properties"]["Files"] = {"files": files}`
(src/app.py:224) has mutated the same dict object that `props` names. -/
def note_props_sent (title text : String) (tags : List String)
    (ids : NoteIdsArg) (files : List NFile) (source : Option String) :
    List (String × PropVal) :=
  note_base_props title text tags ids source ++
  (if files ≠ [] then [("Files", PropVal.files files)] else [])

/-- A remote request issued by `create_note`. -/
inductive NRequest
  | createPage (props : List (String × PropVal)) (children : List NBlock)
  | patchChildren (pageId : String) (children : List NBlock)
deriving DecidableEq, Repr

/-- `create_note` (src/app.py:219-241) as the sequence of remote requests it
issues and the page id it returns.  `firstFails` says whether the first
`POST /pages` raises `HTTPError`; `id1`/`id2` are the page ids the remote
returns for the first/second create.  On failure the code pops `children`
from the first payload and rebuilds `payload2` around the same (mutated)
`props` dict, then appends the children in a separate
`PATCH /blocks/{id}/children` on the page the retry created. -/
def create_note_requests (title text : String) (tags : List String)
    (ids : NoteIdsArg) (files : List NFile) (source : Option String)
    (firstFails : Bool) (id1 id2 : String) : List NRequest × String :=
  let props := note_props_sent title text tags ids files source
  let children := build_children_blocks text files
  let req1 := NRequest.createPage props children
  if firstFails then
    ([req1, NRequest.createPage props []] ++
     (if children ≠ [] then [NRequest.patchChildren id2 children] else []),
     id2)
  else
    ([req1], id1)

/-! ### Conversation state machine (src/app.py:377-887)

States are the constants of src/app.py:379-383 that `build_app` registers a
handler for, plus `addSubtopicName` (the value `ADD_SUBTOPIC + 200` that
`add_subtopic_next` returns), which `build_app` does **not** register. -/

inductive StateId
  | menu
  | addCat
  | addSub
  | addSubName
  | addTopic
  | addTopicNext
  | addTopicName
  | addSubtopic
  | addSubtopicNext
  | addSubtopicName
  | addSubtopicCreate
  | notePickL1
  | notePickL2
  | notePickL3
  | notePickL4
  | noteFilesOrText
  | taskTitle
  | taskDue
  | taskProject
  | timeProject
  | timeMinutes
  | timeNote
  | searchEnter
deriving DecidableEq, Repr

/-- The `NOTE_IDS` session dict.  Every site that creates it stores a string
under `"cat"` and `None` under the other keys (src/app.py:448,459,634). -/
structure NoteIds where
  cat : String
  sub : Option String
  topic : Option String
  subtopic : Option String
deriving DecidableEq, Repr

/-- The `CHAIN` session dict of the subtopic workflow; both keys may be
absent. -/
structure Chain where
  cat : Option CatalogNode
  sub : Option CatalogNode
deriving DecidableEq, Repr

/-- `ctx.user_data`: each field is one key of the per-user dict, `none`
modelling an absent key. -/
structure UserData where
  L1 : Option (List CatalogNode)
  L2 : Option (List CatalogNode)
  L3 : Option (List CatalogNode)
  L4 : Option (List CatalogNode)
  PARENT : Option CatalogNode
  PARENT_FINAL : Option CatalogNode
  CHAIN : Option Chain
  NOTE_IDS : Option NoteIds
  FILES : Option (List NFile)
  TEXTBUF : Option (List String)
  TASK_TITLE : Option String
  TASK_DUE : Option (Option String)
  TIME_PROJECT : Option String
  TIME_MIN : Option Nat
deriving DecidableEq, Repr

/-- The empty `user_data` dict (also the result of `ctx.user_data.clear()`). -/
def emptyUD : UserData :=
  ⟨none, none, none, none, none, none, none, none, none, none, none, none,
   none, none⟩

/-- An inbound update delivered to the conversation, as the handlers consume
it: its text, or its photo/document payload (`filePath` is
`getattr(file, "file_path", None)` of the resolved Telegram file). -/
inductive Msg
  | text (s : String)
  | photo (filePath : Option String) (caption : Option String)
  | document (filePath : Option String) (fileName : Option String)
      (caption : Option String)
  | voice
deriving DecidableEq, Repr

/-- External collaborators of one handler step, as pure oracles: the raw
(unsorted) result of the catalog query that `find_nodes` issues, the node
`ensure_inbox_category` resolves to, the optional-AI answer of
`ai_suggest_tags_and_summary`, the configured databases, `BOT_TOKEN`, and
the stdlib datetime parsing of `task_add_due`.  Creation side effects on
the store are modelled separately by `NStore`; whether the capture commit's
`create_note` raises does not influence the handler's resulting state. -/
structure BotEnv where
  queryCatalog : String → Option String → List CatalogNode
  inbox : CatalogNode
  ai : String → List String × String
  botToken : String
  tasksDb : Bool
  timelogDb : Bool
  projectsDb : Bool
  parseDue : String → Option String

/-- `find_nodes` (src/app.py:119) against the oracle: query, then sort. -/
def find_nodes_env (env : BotEnv) (level : String) (parent_id : Option String) :
    List CatalogNode :=
  find_nodes_sort (env.queryCatalog level parent_id)

/-- The Telegram file URL built at src/app.py:723. -/
def tgUrl (token filePath : String) : String :=
  "https://api.telegram.org/file/bot" ++ token ++ "/" ++ filePath

/-- The note assembled by the "Готово" branch of `note_files_or_text`
(src/app.py:695-705): the arguments it passes to `create_note`. -/
structure NoteSubmission where
  title : String
  text : String
  tags : List String
  ids : NoteIdsArg
  files : List NFile
deriving DecidableEq, Repr

/-- Result of one handler step: the state returned to the conversation
handler, the updated `user_data`, the choice labels passed to `kb_list`
when a list keyboard was shown (without the appended back row), and the
note submission when this step committed a capture. -/
structure StepResult where
  state : StateId
  ud : UserData
  offered : List String
  submitted : Option NoteSubmission
deriving DecidableEq, Repr

/-- The universal back-to-menu button label. -/
def backText : String := "⬅️ Назад у меню"

/-- The skip sentinel offered at every optional tree level. -/
def skipText : String := "— Пропустити —"

/-- The capture-commit button label. -/
def doneText : String := "Готово"

/-- `text_all` at src/app.py:697: fragments joined with newlines, truncated
to 1800 code points. -/
def commit_text_all (textbuf : List String) : String :=
  pyTake (String.intercalate "\n" textbuf) 1800

/-- The title derivation at src/app.py:703:
`(text_all.splitlines()[0] if text_all else (ai_summary or "Нотатка"))[:60]`. -/
def commit_title (textbuf : List String) (ai_summary : String) : String :=
  let text_all := commit_text_all textbuf
  pyTake (if text_all ≠ "" then (pySplitlines text_all).headD ""
          else pyOrStr ai_summary "Нотатка") 60

/-- `cmd_start` (src/app.py:407): reply with the main keyboard and return
`MENU`; `user_data` is untouched. -/
def cmd_start (ud : UserData) : StepResult :=
  ⟨StateId.menu, ud, [], none⟩

/-- The `user_data` written when a capture session starts from the menu
(src/app.py:448-451 and 459-461): `NOTE_IDS` aimed at the Inbox category,
empty `FILES` and `TEXTBUF`. -/
def startQuickCapture (ud : UserData) (inbox : CatalogNode) : UserData :=
  { ud with NOTE_IDS := some ⟨inbox.id, none, none, none⟩,
            FILES := some [], TEXTBUF := some [] }

/-- The shared shape of the three tree-building menu branches
(src/app.py:418-441): query the categories, bail out to the menu when there
are none, else store them under `L1`, offer their names and move to
`target`. -/
def menu_pick_parent (target : StateId) (ud : UserData) (env : BotEnv) :
    StepResult :=
  let cats := find_nodes_env env "Category" none
  if cats = [] then ⟨StateId.menu, ud, [], none⟩
  else ⟨target, { ud with L1 := some cats }, cats.map (fun c => c.name), none⟩

/-- The "Нотатка" menu branch (src/app.py:443-455): with no categories the
capture starts immediately, aimed at the auto-created Inbox; otherwise the
level-1 pick is offered. -/
def menu_note (ud : UserData) (env : BotEnv) : StepResult :=
  let cats := find_nodes_env env "Category" none
  if cats = [] then
    ⟨StateId.noteFilesOrText, startQuickCapture ud env.inbox, [], none⟩
  else ⟨StateId.notePickL1, { ud with L1 := some cats },
        cats.map (fun c => c.name), none⟩

/-- `menu_router` (src/app.py:411-504). -/
def menu_router (t : String) (ud : UserData) (env : BotEnv) : StepResult :=
  let s := pyStrip t
  if s = "Категорія" then ⟨StateId.addCat, ud, [], none⟩
  else if s = "Підкатегорія" then menu_pick_parent StateId.addSub ud env
  else if s = "Топік" then menu_pick_parent StateId.addTopic ud env
  else if s = "Підтопік" then menu_pick_parent StateId.addSubtopic ud env
  else if s = "Нотатка" then menu_note ud env
  else if s = "Швидка нотатка" then
    ⟨StateId.noteFilesOrText, startQuickCapture ud env.inbox, [], none⟩
  else if s = "Задача" then
    if env.tasksDb then ⟨StateId.taskTitle, ud, [], none⟩
    else ⟨StateId.menu, ud, [], none⟩
  else if s = "Час" then
    if env.timelogDb && env.projectsDb then ⟨StateId.timeProject, ud, [], none⟩
    else ⟨StateId.menu, ud, [], none⟩
  else if s = "Статистика" then ⟨StateId.menu, ud, [], none⟩
  else if s = "Пошук" then ⟨StateId.searchEnter, ud, [], none⟩
  else if s = "Довідка" then ⟨StateId.menu, ud, [], none⟩
  else if s = "Скасувати" ∨ s = backText then ⟨StateId.menu, emptyUD, [], none⟩
  else ⟨StateId.menu, ud, [], none⟩

/-- `add_cat` (src/app.py:507); the `ensure_node` creation effect lives in
the `NStore` model. -/
def add_cat (t : String) (ud : UserData) (_env : BotEnv) : Option StepResult :=
  let s := pyStrip t
  if s = backText then some (cmd_start ud)
  else some ⟨StateId.menu, ud, [], none⟩

/-- `add_sub` (src/app.py:513). -/
def add_sub (t : String) (ud : UserData) (_env : BotEnv) : Option StepResult :=
  let s := pyStrip t
  if s = backText then some (cmd_start ud)
  else
    let cats := ud.L1.getD []
    match cats.find? (fun c => c.name = s) with
    | none => some ⟨StateId.addSub, ud, cats.map (fun c => c.name), none⟩
    | some p => some ⟨StateId.addSubName, { ud with PARENT := some p }, [], none⟩

/-- `add_sub_name` (src/app.py:524); reading a missing `PARENT` key raises
`KeyError`, modelled as `none`. -/
def add_sub_name (t : String) (ud : UserData) (_env : BotEnv) :
    Option StepResult :=
  let s := pyStrip t
  if s = backText then some (cmd_start ud)
  else
    match ud.PARENT with
    | none => none
    | some _ => some ⟨StateId.menu, ud, [], none⟩

/-- `add_topic` (src/app.py:531). -/
def add_topic (t : String) (ud : UserData) (env : BotEnv) : Option StepResult :=
  let s := pyStrip t
  if s = backText then some (cmd_start ud)
  else
    let cats := ud.L1.getD []
    match cats.find? (fun c => c.name = s) with
    | none => some ⟨StateId.addTopic, ud, cats.map (fun c => c.name), none⟩
    | some p =>
      let subs := find_nodes_env env "Subcategory" (some p.id)
      some ⟨StateId.addTopicNext,
            { ud with PARENT := some p, L2 := some subs },
            skipText :: subs.map (fun x => x.name), none⟩

/-- `add_topic_next` (src/app.py:546); `PARENT` is read unconditionally
before the skip check. -/
def add_topic_next (t : String) (ud : UserData) (_env : BotEnv) :
    Option StepResult :=
  let s := pyStrip t
  if s = backText then some (cmd_start ud)
  else
    match ud.PARENT with
    | none => none
    | some parent =>
      if s ≠ skipText then
        let subs := ud.L2.getD []
        match subs.find? (fun x => x.name = s) with
        | none => some ⟨StateId.addTopicNext, ud,
                        skipText :: subs.map (fun x => x.name), none⟩
        | some sub =>
          some ⟨StateId.addTopicName,
                { ud with PARENT_FINAL := some sub }, [], none⟩
      else
        some ⟨StateId.addTopicName,
              { ud with PARENT_FINAL := some parent }, [], none⟩

/-- `add_topic_name` (src/app.py:561). -/
def add_topic_name (t : String) (ud : UserData) (_env : BotEnv) :
    Option StepResult :=
  let s := pyStrip t
  if s = backText then some (cmd_start ud)
  else
    match ud.PARENT_FINAL with
    | none => none
    | some _ => some ⟨StateId.menu, ud, [], none⟩

/-- `add_subtopic` (src/app.py:568): `ctx.user_data.get("L1", []) or
find_nodes("Category")` falls back to a fresh query when the stored list is
absent or empty. -/
def add_subtopic (t : String) (ud : UserData) (env : BotEnv) :
    Option StepResult :=
  let s := pyStrip t
  if s = backText then some (cmd_start ud)
  else
    let cats := match ud.L1 with
      | some l => if l = [] then find_nodes_env env "Category" none else l
      | none => find_nodes_env env "Category" none
    match cats.find? (fun c => c.name = s) with
    | none => some ⟨StateId.addSubtopic, ud, cats.map (fun c => c.name), none⟩
    | some cat =>
      let subs := find_nodes_env env "Subcategory" (some cat.id)
      some ⟨StateId.addSubtopicNext,
            { ud with L2 := some subs, CHAIN := some ⟨some cat, none⟩ },
            skipText :: subs.map (fun x => x.name), none⟩

/-- `add_subtopic_next` (src/app.py:582): note that
`chain.get("sub", chain["cat"])` evaluates `chain["cat"]` eagerly, so a
chain without `"cat"` raises `KeyError` regardless of `"sub"`.  The
returned state `ADD_SUBTOPIC + 200` has no registered handler. -/
def add_subtopic_next (t : String) (ud : UserData) (env : BotEnv) :
    Option StepResult :=
  let s := pyStrip t
  if s = backText then some (cmd_start ud)
  else
    let chain := ud.CHAIN.getD ⟨none, none⟩
    let afterSel : Option (Option Chain) :=
      if s ≠ skipText then
        let subs := ud.L2.getD []
        match subs.find? (fun x => x.name = s) with
        | none => none
        | some sub => some (some { chain with sub := some sub })
      else some (some chain)
    match afterSel with
    | none =>
      some ⟨StateId.addSubtopicNext, ud,
            skipText :: (ud.L2.getD []).map (fun x => x.name), none⟩
    | some (some chain') =>
      match chain'.cat with
      | none => none
      | some c =>
        let base := chain'.sub.getD c
        let topics := find_nodes_env env "Topic" (some base.id)
        some ⟨StateId.addSubtopicName,
              { ud with L3 := some topics, CHAIN := some chain' },
              skipText :: topics.map (fun x => x.name), none⟩
    | some none => none

/-- `add_subtopic_name` (src/app.py:601), the handler of the unregistered
state `ADD_SUBTOPIC + 200`; in the skip branch
`chain.get("sub") or chain.get("cat")` may leave `parent = None`, and
`parent.name` then raises, modelled as `none`. -/
def add_subtopic_name (t : String) (ud : UserData) (_env : BotEnv) :
    Option StepResult :=
  let s := pyStrip t
  if s = backText then some (cmd_start ud)
  else
    let chain := ud.CHAIN.getD ⟨none, none⟩
    if s ≠ skipText then
      let topics := ud.L3.getD []
      match topics.find? (fun x => x.name = s) with
      | none => some ⟨StateId.addSubtopicName, ud,
                      skipText :: topics.map (fun x => x.name), none⟩
      | some topic =>
        some ⟨StateId.addSubtopicCreate,
              { ud with PARENT_FINAL := some topic }, [], none⟩
    else
      match chain.sub.orElse (fun _ => chain.cat) with
      | none => none
      | some p =>
        some ⟨StateId.addSubtopicCreate,
              { ud with PARENT_FINAL := some p }, [], none⟩

/-- `add_subtopic_create` (src/app.py:619). -/
def add_subtopic_create (t : String) (ud : UserData) (_env : BotEnv) :
    Option StepResult :=
  let s := pyStrip t
  if s = backText then some (cmd_start ud)
  else
    match ud.PARENT_FINAL with
    | none => none
    | some _ => some ⟨StateId.menu, ud, [], none⟩

/-- `note_pick_l1` (src/app.py:627). -/
def note_pick_l1 (t : String) (ud : UserData) (env : BotEnv) :
    Option StepResult :=
  let s := pyStrip t
  if s = backText then some (cmd_start ud)
  else
    let cats := ud.L1.getD []
    match cats.find? (fun c => c.name = s) with
    | none => some ⟨StateId.notePickL1, ud, cats.map (fun c => c.name), none⟩
    | some cat =>
      let subs := find_nodes_env env "Subcategory" (some cat.id)
      some ⟨StateId.notePickL2,
            { ud with NOTE_IDS := some ⟨cat.id, none, none, none⟩,
                      L2 := some subs },
            skipText :: subs.map (fun x => x.name), none⟩

/-- `note_pick_l2` (src/app.py:640): on a subcategory pick, record it in
`NOTE_IDS` and descend from it; on skip, descend from the category. -/
def note_pick_l2 (t : String) (ud : UserData) (env : BotEnv) :
    Option StepResult :=
  let s := pyStrip t
  if s = backText then some (cmd_start ud)
  else if s ≠ skipText then
    let subs := ud.L2.getD []
    match subs.find? (fun x => x.name = s) with
    | none => some ⟨StateId.notePickL2, ud,
                    skipText :: subs.map (fun x => x.name), none⟩
    | some sub =>
      match ud.NOTE_IDS with
      | none => none
      | some ids =>
        let topics := find_nodes_env env "Topic" (some sub.id)
        some ⟨StateId.notePickL3,
              { ud with NOTE_IDS := some { ids with sub := some sub.id },
                        L3 := some topics },
              skipText :: topics.map (fun x => x.name), none⟩
  else
    match ud.NOTE_IDS with
    | none => none
    | some ids =>
      let topics := find_nodes_env env "Topic" (some ids.cat)
      some ⟨StateId.notePickL3, { ud with L3 := some topics },
            skipText :: topics.map (fun x => x.name), none⟩

/-- `note_pick_l3` (src/app.py:657): on skip the descent continues from
`NOTE_IDS.get("sub") or NOTE_IDS["cat"]`, the most recently chosen
ancestor. -/
def note_pick_l3 (t : String) (ud : UserData) (env : BotEnv) :
    Option StepResult :=
  let s := pyStrip t
  if s = backText then some (cmd_start ud)
  else if s ≠ skipText then
    let topics := ud.L3.getD []
    match topics.find? (fun x => x.name = s) with
    | none => some ⟨StateId.notePickL3, ud,
                    skipText :: topics.map (fun x => x.name), none⟩
    | some topic =>
      match ud.NOTE_IDS with
      | none => none
      | some ids =>
        let s2 := find_nodes_env env "Subtopic" (some topic.id)
        some ⟨StateId.notePickL4,
              { ud with NOTE_IDS := some { ids with topic := some topic.id },
                        L4 := some s2 },
              skipText :: s2.map (fun x => x.name), none⟩
  else
    match ud.NOTE_IDS with
    | none => none
    | some ids =>
      let base := pyOrOpt ids.sub ids.cat
      let s2 := find_nodes_env env "Subtopic" (some base)
      some ⟨StateId.notePickL4, { ud with L4 := some s2 },
            skipText :: s2.map (fun x => x.name), none⟩

/-- `note_pick_l4` (src/app.py:674): record the picked subtopic (if not
skipped), then initialize the capture buffers and enter the collecting
state. -/
def note_pick_l4 (t : String) (ud : UserData) (_env : BotEnv) :
    Option StepResult :=
  let s := pyStrip t
  if s = backText then some (cmd_start ud)
  else if s ≠ skipText then
    let s2 := ud.L4.getD []
    match s2.find? (fun x => x.name = s) with
    | none => some ⟨StateId.notePickL4, ud,
                    skipText :: s2.map (fun x => x.name), none⟩
    | some sp =>
      match ud.NOTE_IDS with
      | none => none
      | some ids =>
        some ⟨StateId.noteFilesOrText,
              { ud with NOTE_IDS := some { ids with subtopic := some sp.id },
                        FILES := some [], TEXTBUF := some [] }, [], none⟩
  else
    some ⟨StateId.noteFilesOrText,
          { ud with FILES := some [], TEXTBUF := some [] }, [], none⟩

/-- The `ids` argument `create_note` receives from the commit branch:
`ctx.user_data.get("NOTE_IDS", {})` followed by `ids.get(...)` on each
key. -/
def noteIdsArgOf (o : Option NoteIds) : NoteIdsArg :=
  match o with
  | some ids => ⟨some ids.cat, ids.sub, ids.topic, ids.subtopic⟩
  | none => ⟨none, none, none, none⟩

/-- `note_files_or_text` (src/app.py:690-744).  The back and done labels are
compared against the raw (unstripped) message text; buffered text fragments
are stripped; captions are buffered unstripped; photo/document fragments
append one external-URL file dict when the Telegram file has a
`file_path`.  On "Готово" the note is assembled and submitted, and the
buffers are popped and the state returns to `MENU` on the success and the
failure path alike. -/
def note_files_or_text (m : Msg) (ud : UserData) (env : BotEnv) :
    Option StepResult :=
  match m with
  | Msg.text t =>
    if t = backText then
      some ⟨StateId.menu, { ud with FILES := none, TEXTBUF := none }, [], none⟩
    else if t = doneText then
      let text_all := commit_text_all (ud.TEXTBUF.getD [])
      let files := ud.FILES.getD []
      let tags := parse_hashtags text_all
      let aiOut := env.ai text_all
      let sub : NoteSubmission :=
        ⟨commit_title (ud.TEXTBUF.getD []) aiOut.2,
         pyOrStr text_all aiOut.2,
         tags ++ aiOut.1,
         noteIdsArgOf ud.NOTE_IDS,
         files⟩
      some ⟨StateId.menu, { ud with FILES := none, TEXTBUF := none }, [],
            some sub⟩
    else if t ≠ "" then
      some ⟨StateId.noteFilesOrText,
            { ud with TEXTBUF := some ((ud.TEXTBUF.getD []) ++ [pyStrip t]) },
            [], none⟩
    else
      some ⟨StateId.noteFilesOrText, ud, [], none⟩
  | Msg.photo filePath caption =>
    let ud1 := match filePath with
      | some p =>
        { ud with FILES := some ((ud.FILES.getD []) ++
            [⟨"photo.jpg", tgUrl env.botToken p⟩]) }
      | none => ud
    let ud2 := match caption with
      | some c =>
        if c ≠ "" then
          { ud1 with TEXTBUF := some ((ud1.TEXTBUF.getD []) ++ [c]) }
        else ud1
      | none => ud1
    some ⟨StateId.noteFilesOrText, ud2, [], none⟩
  | Msg.document filePath fileName caption =>
    let ud1 := match filePath with
      | some p =>
        { ud with FILES := some ((ud.FILES.getD []) ++
            [⟨pyOrStr (fileName.getD "") "file.bin", tgUrl env.botToken p⟩]) }
      | none => ud
    let ud2 := match caption with
      | some c =>
        if c ≠ "" then
          { ud1 with TEXTBUF := some ((ud1.TEXTBUF.getD []) ++ [c]) }
        else ud1
      | none => ud1
    some ⟨StateId.noteFilesOrText, ud2, [], none⟩
  | Msg.voice => some ⟨StateId.noteFilesOrText, ud, [], none⟩

/-- `task_add_title` (src/app.py:747). -/
def task_add_title (t : String) (ud : UserData) (_env : BotEnv) :
    Option StepResult :=
  let s := pyStrip t
  if s = backText then some (cmd_start ud)
  else some ⟨StateId.taskDue, { ud with TASK_TITLE := some s }, [], none⟩

/-- `task_add_due` (src/app.py:754); the stdlib datetime parsing is the
`parseDue` oracle, a parse failure re-prompts without a state change. -/
def task_add_due (t : String) (ud : UserData) (env : BotEnv) :
    Option StepResult :=
  let s := pyStrip t
  if s = backText then some (cmd_start ud)
  else if s = "" then
    some ⟨StateId.taskProject, { ud with TASK_DUE := some none }, [], none⟩
  else
    match env.parseDue s with
    | none => some ⟨StateId.taskDue, ud, [], none⟩
    | some d =>
      some ⟨StateId.taskProject, { ud with TASK_DUE := some (some d) }, [],
            none⟩

/-- `task_add_project` (src/app.py:771): the whole `create_task` call sits
in a `try` whose `except` also returns `MENU`, so the step always goes to
the menu with `user_data` unchanged. -/
def task_add_project (t : String) (ud : UserData) (_env : BotEnv) :
    Option StepResult :=
  let s := pyStrip t
  if s = backText then some (cmd_start ud)
  else some ⟨StateId.menu, ud, [], none⟩

/-- `time_add_project` (src/app.py:783). -/
def time_add_project (t : String) (ud : UserData) (_env : BotEnv) :
    Option StepResult :=
  let s := pyStrip t
  if s = backText then some (cmd_start ud)
  else some ⟨StateId.timeMinutes, { ud with TIME_PROJECT := some s }, [],
             none⟩

/-- `time_add_minutes` (src/app.py:790): an unparseable duration re-prompts
the same state. -/
def time_add_minutes (t : String) (ud : UserData) (_env : BotEnv) :
    Option StepResult :=
  let s := pyStrip t
  if s = backText then some (cmd_start ud)
  else
    match parse_duration s with
    | none => some ⟨StateId.timeMinutes, ud, [], none⟩
    | some m_ =>
      some ⟨StateId.timeNote, { ud with TIME_MIN := some m_ }, [], none⟩

/-- `time_add_note` (src/app.py:801): `add_time_log` sits in a `try`, every
path returns `MENU`. -/
def time_add_note (t : String) (ud : UserData) (_env : BotEnv) :
    Option StepResult :=
  let s := pyStrip t
  if s = backText then some (cmd_start ud)
  else some ⟨StateId.menu, ud, [], none⟩

/-- `search_enter` (src/app.py:813): result, empty result and error paths
all return `MENU` with `user_data` unchanged. -/
def search_enter (t : String) (ud : UserData) (_env : BotEnv) :
    Option StepResult :=
  let s := pyStrip t
  if s = backText then some (cmd_start ud)
  else some ⟨StateId.menu, ud, [], none⟩

/-- The dispatch of `build_app` (src/app.py:843-878): one handler per
registered state, filtered as registered (text only, except the capture
state, which also accepts photos and documents); the state
`ADD_SUBTOPIC + 200` (`addSubtopicName`) is returned by
`add_subtopic_next` but never registered, so updates arriving there are not
handled (`none`). -/
def stepApp (st : StateId) (m : Msg) (ud : UserData) (env : BotEnv) :
    Option StepResult :=
  match st, m with
  | StateId.menu, Msg.text t => some (menu_router t ud env)
  | StateId.addCat, Msg.text t => add_cat t ud env
  | StateId.addSub, Msg.text t => add_sub t ud env
  | StateId.addSubName, Msg.text t => add_sub_name t ud env
  | StateId.addTopic, Msg.text t => add_topic t ud env
  | StateId.addTopicNext, Msg.text t => add_topic_next t ud env
  | StateId.addTopicName, Msg.text t => add_topic_name t ud env
  | StateId.addSubtopic, Msg.text t => add_subtopic t ud env
  | StateId.addSubtopicNext, Msg.text t => add_subtopic_next t ud env
  | StateId.addSubtopicName, _ => none
  | StateId.addSubtopicCreate, Msg.text t => add_subtopic_create t ud env
  | StateId.notePickL1, Msg.text t => note_pick_l1 t ud env
  | StateId.notePickL2, Msg.text t => note_pick_l2 t ud env
  | StateId.notePickL3, Msg.text t => note_pick_l3 t ud env
  | StateId.notePickL4, Msg.text t => note_pick_l4 t ud env
  | StateId.noteFilesOrText, Msg.voice => none
  | StateId.noteFilesOrText, m_ => note_files_or_text m_ ud env
  | StateId.taskTitle, Msg.text t => task_add_title t ud env
  | StateId.taskDue, Msg.text t => task_add_due t ud env
  | StateId.taskProject, Msg.text t => task_add_project t ud env
  | StateId.timeProject, Msg.text t => time_add_project t ud env
  | StateId.timeMinutes, Msg.text t => time_add_minutes t ud env
  | StateId.timeNote, Msg.text t => time_add_note t ud env
  | StateId.searchEnter, Msg.text t => search_enter t ud env
  | _, _ => none

/-- Run a sequence of inbound messages; the result is the final step's
`StepResult`. -/
def runMsgs (env : BotEnv) : List Msg → StateId → UserData →
    Option StepResult
  | [], st, ud => some ⟨st, ud, [], none⟩
  | m :: ms, st, ud =>
    match stepApp st m ud env with
    | none => none
    | some r => if ms.isEmpty then some r else runMsgs env ms r.state r.ud


/-- A concrete environment used by the closed witness instances. -/
def envDefault : BotEnv where
  queryCatalog := fun _ _ => []
  inbox := ⟨"inbox-id", "Inbox", "Category", none⟩
  ai := fun _ => ([], "")
  botToken := "TOKEN"
  tasksDb := true
  timelogDb := true
  projectsDb := true
  parseDue := fun _ => none

/-- Modelled from the spec's words, for comparison with
`safe_multi_select`: stripping only the LEADING `'#'` characters and
spaces of each token. -/
def pyStripLeadHashSpace (s : String) : String :=
  String.mk (s.data.dropWhile (fun c => c = '#' || c = ' '))

/-- The C7 normalization as the claim words it (leading-only stripping);
otherwise identical to `smsGo`. -/
def smsLeadGo : List String → List String → List String
  | [], _ => []
  | t :: rest, seen =>
    let k := pyLower (pyStripLeadHashSpace t)
    if k = "" then smsLeadGo rest seen
    else if k ∈ seen then smsLeadGo rest seen
    else if seen.length + 1 ≥ 10 then [pyTake k 50]
    else pyTake k 50 :: smsLeadGo rest (k :: seen)

/-- The claim-worded tag normalization (leading-only stripping). -/
def safe_multi_select_lead (tags : List String) : List String :=
  smsLeadGo tags []

/-- First-occurrence deduplication with a seen-accumulator: the loop of
`_safe_multi_select` with the emptiness filter, the 50-point truncation and
the ten-tag cap factored out; it keeps the first occurrence of every key,
in input order. -/
def foGo : List String → List String → List String
  | [], _ => []
  | k :: rest, seen =>
    if k ∈ seen then foGo rest seen else k :: foGo rest (k :: seen)

/-- The first-occurrence deduplication of a list of keys. -/
def foDedup (l : List String) : List String :=
  foGo l []

/-- The session dict at the start of a concrete capture session, used by
closed witness instances. -/
def udCapture : UserData :=
  { emptyUD with NOTE_IDS := some ⟨"inbox-id", none, none, none⟩,
                 FILES := some [], TEXTBUF := some [] }

/-- The mid-workflow states `build_app` registers a handler for
(src/app.py:845-877); `ADD_SUBTOPIC + 200` is absent because `build_app`
never registers it. -/
def registeredMidStates : List StateId :=
  [StateId.addCat, StateId.addSub, StateId.addSubName, StateId.addTopic,
   StateId.addTopicNext, StateId.addTopicName, StateId.addSubtopic,
   StateId.addSubtopicNext, StateId.addSubtopicCreate, StateId.notePickL1,
   StateId.notePickL2, StateId.notePickL3, StateId.notePickL4,
   StateId.noteFilesOrText, StateId.taskTitle, StateId.taskDue,
   StateId.taskProject, StateId.timeProject, StateId.timeMinutes,
   StateId.timeNote, StateId.searchEnter]

/-! ### Helper lemmas -/

/-- `pyTake` cuts to at most `n` code points. -/
theorem pyTake_length_le (s : String) (n : Nat) : (pyTake s n).length ≤ n := by
  show (s.data.take n).length ≤ n
  simp [List.length_take]

/-- `pyTake` never lengthens a string. -/
theorem pyTake_length_le_self (s : String) (n : Nat) :
    (pyTake s n).length ≤ s.length := by
  show (s.data.take n).length ≤ s.data.length
  simp [List.length_take]

/-- Bound on the number of tags `smsGo` emits. -/
theorem smsGo_length_le (ts : List String) :
    ∀ seen : List String, seen.length ≤ 9 →
      (smsGo ts seen).length ≤ 10 - seen.length := by
  induction ts with
  | nil => intro seen _; simp [smsGo]
  | cons t rest ih =>
    intro seen hseen
    simp only [smsGo]
    split
    · exact ih seen hseen
    · split
      · exact ih seen hseen
      · split
        · simp; omega
        · rename_i hlt
          have h8 : seen.length ≤ 8 := by omega
          have := ih (pyLower (pyStripHashSpace t) :: seen) (by simp; omega)
          simp only [List.length_cons] at this ⊢
          omega

/-- Every tag `smsGo` emits is the 50-point cut of a stripped, lower-cased
input token. -/
theorem smsGo_mem (ts : List String) :
    ∀ seen u, u ∈ smsGo ts seen →
      ∃ t ∈ ts, u = pyTake (pyLower (pyStripHashSpace t)) 50 := by
  induction ts with
  | nil => intro seen u h; simp [smsGo] at h
  | cons t rest ih =>
    intro seen u h
    simp only [smsGo] at h
    split at h
    · obtain ⟨t', ht', he⟩ := ih _ _ h
      exact ⟨t', List.mem_cons_of_mem _ ht', he⟩
    · split at h
      · obtain ⟨t', ht', he⟩ := ih _ _ h
        exact ⟨t', List.mem_cons_of_mem _ ht', he⟩
      · split at h
        · simp at h
          exact ⟨t, List.mem_cons_self _ _, h⟩
        · rcases List.mem_cons.mp h with h1 | h1
          · exact ⟨t, List.mem_cons_self _ _, h1⟩
          · obtain ⟨t', ht', he⟩ := ih _ _ h1
            exact ⟨t', List.mem_cons_of_mem _ ht', he⟩

/-- A key kept by `foGo` was not in the seen accumulator. -/
theorem foGo_not_mem (l : List String) :
    ∀ seen k, k ∈ foGo l seen → k ∉ seen := by
  induction l with
  | nil => intro seen k h; simp [foGo] at h
  | cons a rest ih =>
    intro seen k h
    simp only [foGo] at h
    split at h
    · exact ih seen k h
    · rcases List.mem_cons.mp h with rfl | h1
      · assumption
      · intro hk
        exact ih _ _ h1 (List.mem_cons_of_mem _ hk)

/-- First-occurrence deduplication emits pairwise distinct keys. -/
theorem foGo_nodup (l : List String) : ∀ seen, (foGo l seen).Nodup := by
  induction l with
  | nil => intro seen; simp [foGo]
  | cons a rest ih =>
    intro seen
    simp only [foGo]
    split
    · exact ih seen
    · refine List.nodup_cons.mpr ⟨?_, ih _⟩
      intro hmem
      exact foGo_not_mem rest _ a hmem (List.mem_cons_self a seen)

/-- First-occurrence deduplication keeps the kept keys in input order. -/
theorem foGo_sublist (l : List String) :
    ∀ seen, List.Sublist (foGo l seen) l := by
  induction l with
  | nil => intro seen; simp [foGo]
  | cons a rest ih =>
    intro seen
    simp only [foGo]
    split
    · exact List.Sublist.cons a (ih seen)
    · exact List.Sublist.cons₂ a (ih _)

/-- The `_safe_multi_select` loop is exactly: normalize every token, drop
the empty keys, deduplicate keeping first occurrences, cap at ten, and cut
each kept key to 50 points. -/
theorem smsGo_eq_foGo (ts : List String) :
    ∀ seen : List String, seen.length ≤ 9 →
      smsGo ts seen =
        (List.take (10 - seen.length)
          (foGo ((ts.map (fun t => pyLower (pyStripHashSpace t))).filter
            (fun k => k != "")) seen)).map (fun k => pyTake k 50) := by
  induction ts with
  | nil => intro seen _; simp [smsGo, foGo]
  | cons t rest ih =>
    intro seen hlen
    simp only [smsGo, List.map_cons]
    rw [List.filter_cons]
    by_cases hk : pyLower (pyStripHashSpace t) = ""
    · rw [if_pos hk,
        if_neg (show ¬((pyLower (pyStripHashSpace t) != "") = true) by
          simp [hk])]
      exact ih seen hlen
    · rw [if_neg hk,
        if_pos (show (pyLower (pyStripHashSpace t) != "") = true by
          simp [hk])]
      simp only [foGo]
      by_cases hm : pyLower (pyStripHashSpace t) ∈ seen
      · rw [if_pos hm, if_pos hm]
        exact ih seen hlen
      · rw [if_neg hm, if_neg hm]
        by_cases hc : seen.length + 1 ≥ 10
        · rw [if_pos hc]
          have h9 : seen.length = 9 := by omega
          rw [h9]
          simp
        · rw [if_neg hc]
          rw [show 10 - seen.length = (10 - (seen.length + 1)) + 1 from by
            omega]
          rw [List.take_succ_cons, List.map_cons]
          have hrec := ih (pyLower (pyStripHashSpace t) :: seen)
            (by simp only [List.length_cons]; omega)
          simp only [List.length_cons] at hrec
          rw [hrec]

/-! ### Claim theorems -/

/-- C8: `parse_duration` maps "4h" to 240 minutes, "30m" to 30, "1:20" to
80 and "90" to 90, and rejects the unparseable "abc" (a raised
`ValueError`, the spec's `ValidationError`). -/
theorem parse_duration_values :
    parse_duration "4h" = some 240 ∧ parse_duration "30m" = some 30 ∧
    parse_duration "1:20" = some 80 ∧ parse_duration "90" = some 90 ∧
    parse_duration "abc" = none := by
  decide

/-- C4: for every order in which the remote query returns the nodes of a
level, `find_nodes` returns exactly those nodes (a permutation) sorted
ascending by case-insensitive name. -/
theorem find_nodes_sorted (results : List CatalogNode) :
    (find_nodes_sort results).Sorted nodeNameLE ∧
    List.Perm (find_nodes_sort results) results :=
  ⟨List.sorted_insertionSort nodeNameLE results,
   List.perm_insertionSort nodeNameLE results⟩

/-- C1 counterexample: two sequential `ensure_node` calls with identical
arguments return two distinct node ids and create two remote records while
issuing no lookup query at all, refuting both the claimed exact-name lookup
and the claimed idempotency. -/
theorem ensure_node_twice_two_creates :
    (ensure_node "Alpha" "Category" none
        (ensure_node "Alpha" "Category" none ⟨0, [], 0⟩).2).1.id ≠
      (ensure_node "Alpha" "Category" none ⟨0, [], 0⟩).1.id ∧
    (ensure_node "Alpha" "Category" none
        (ensure_node "Alpha" "Category" none ⟨0, [], 0⟩).2).2.created.length = 2 ∧
    (ensure_node "Alpha" "Category" none
        (ensure_node "Alpha" "Category" none ⟨0, [], 0⟩).2).2.queries = 0 := by
  decide

/-- C1 amended: `ensure_node` performs no lookup (the helper
`find_by_name_exact` exists but is never invoked): it unconditionally
issues one create, returning a node carrying the freshly assigned id, so
two sequential calls with the same `(name, level, parent)` create two
records with distinct ids. -/
theorem ensure_node_always_creates (name level : String)
    (pid : Option String) (st : NStore) :
    (ensure_node name level pid st).2.queries = st.queries ∧
    (ensure_node name level pid st).2.created =
      st.created ++ [(st.nextId, name, level, pid)] ∧
    (ensure_node name level pid st).1 = ⟨st.nextId, name, level, pid⟩ ∧
    (ensure_node name level pid (ensure_node name level pid st).2).1.id =
      st.nextId + 1 ∧
    (ensure_node name level pid (ensure_node name level pid st).2).1.id ≠
      (ensure_node name level pid st).1.id ∧
    (ensure_node name level pid
        (ensure_node name level pid st).2).2.created.length =
      st.created.length + 2 := by
  refine ⟨rfl, rfl, rfl, rfl, by simp [ensure_node], by simp [ensure_node]⟩

/-- C2: with one attached file and a failing first create, `create_note`
retries exactly once and then patches the children onto the page the retry
created — but the retry's properties still contain the `Files` key: the
first payload's `Files` insertion mutated the same `props` dict that
`payload2` reuses, contradicting the code's own comment and log message
("Retry create_note without Files property"). -/
theorem create_note_retry_keeps_files :
    (create_note_requests "t" "body" [] ⟨none, none, none, none⟩
        [⟨"photo.jpg", "https://x/p.jpg"⟩] none true "id1" "id2").2 = "id2" ∧
    (∃ props children,
      (create_note_requests "t" "body" [] ⟨none, none, none, none⟩
          [⟨"photo.jpg", "https://x/p.jpg"⟩] none true "id1" "id2").1 =
        [NRequest.createPage props children, NRequest.createPage props [],
         NRequest.patchChildren "id2" children] ∧
      ("Files", PropVal.files [⟨"photo.jpg", "https://x/p.jpg"⟩]) ∈ props) := by
  refine ⟨rfl,
    note_props_sent "t" "body" [] ⟨none, none, none, none⟩
      [⟨"photo.jpg", "https://x/p.jpg"⟩] none,
    build_children_blocks "body" [⟨"photo.jpg", "https://x/p.jpg"⟩],
    ?_, ?_⟩
  · decide
  · decide


/-- C7 counterexample: `str.strip("# ")` strips both ends, so the token
`"#todo#"` is submitted as `"todo"`, while the claimed leading-only
stripping would submit `"todo#"`. -/
theorem safe_multi_select_not_leading_only :
    safe_multi_select ["#todo#"] = ["todo"] ∧
    safe_multi_select_lead ["#todo#"] = ["todo#"] ∧
    safe_multi_select ["#todo#"] ≠ safe_multi_select_lead ["#todo#"] := by
  decide

/-- C7 amended: each submitted tag is a token stripped of leading AND
trailing `'#'`/space characters, lower-cased and cut to 50 points;
duplicates — judged on the stripped lower-cased token, before the cut —
are dropped preserving first-occurrence order and at most ten tags are
kept: `safe_multi_select` is exactly the 50-point cut of the first ten
entries of the first-occurrence deduplication of the nonempty normalized
keys, which is duplicate-free and in input order.  `"buy milk #todo
#HOME"` yields exactly `["todo", "home"]`, the duplicated input
`["#b", "#a", "#B"]` keeps the first occurrence of `"b"` in place, and
the hashtag tokens remain in the submitted body text (the `Text` property
keeps the raw text). -/
theorem safe_multi_select_normalizes :
    safe_multi_select (parse_hashtags "buy milk #todo #HOME") =
      ["todo", "home"] ∧
    ((note_props_sent "buy milk" "buy milk #todo #HOME"
        (parse_hashtags "buy milk #todo #HOME") ⟨none, none, none, none⟩
        [] none).lookup "Text" =
      some (PropVal.richText "buy milk #todo #HOME")) ∧
    ((note_props_sent "buy milk" "buy milk #todo #HOME"
        (parse_hashtags "buy milk #todo #HOME") ⟨none, none, none, none⟩
        [] none).lookup "Tags" =
      some (PropVal.multiSelect ["todo", "home"])) ∧
    safe_multi_select ["#b", "#a", "#B"] = ["b", "a"] ∧
    (∀ ts, safe_multi_select ts =
      ((foDedup ((ts.map (fun t => pyLower (pyStripHashSpace t))).filter
          (fun k => k != ""))).take 10).map (fun k => pyTake k 50)) ∧
    (∀ l : List String, (foDedup l).Nodup) ∧
    (∀ l : List String, List.Sublist (foDedup l) l) ∧
    (∀ ts, (safe_multi_select ts).length ≤ 10) ∧
    (∀ ts u, u ∈ safe_multi_select ts →
      ∃ t ∈ ts, u = pyTake (pyLower (pyStripHashSpace t)) 50) := by
  refine ⟨by decide, by decide, by decide, by decide, ?_, ?_, ?_, ?_, ?_⟩
  · intro ts
    simpa [safe_multi_select, foDedup] using smsGo_eq_foGo ts [] (by simp)
  · intro l
    exact foGo_nodup l []
  · intro l
    exact foGo_sublist l []
  · intro ts
    have := smsGo_length_le ts [] (by simp)
    simpa [safe_multi_select] using this
  · intro ts u h
    exact smsGo_mem ts [] u h

/-- C7 witness: the amended membership property, discharged at the
concrete tag list `["#todo"]`. -/
theorem safe_multi_select_normalizes_witness :
    ∃ t ∈ ["#todo"], ("todo" : String) = pyTake (pyLower (pyStripHashSpace t)) 50 :=
  safe_multi_select_normalizes.2.2.2.2.2.2.2.2 ["#todo"] "todo" (by decide)

/-- C10: the Name property submitted at capture commit starts the property
list, its content is at most 60 code points, and the title is the first
line of the joined text cut to 60 points, falling back (when the joined
text is empty) to the AI summary or the literal "Нотатка". -/
theorem commit_title_spec (textbuf : List String) (ai_summary text : String)
    (tags : List String) (ids : NoteIdsArg) (source : Option String) :
    (∃ nm, (note_base_props (commit_title textbuf ai_summary) text tags ids
        source).head? = some ("Name", PropVal.title nm) ∧ nm.length ≤ 60) ∧
    (commit_text_all textbuf = "" →
      commit_title textbuf ai_summary =
        pyTake (pyOrStr ai_summary "Нотатка") 60) ∧
    (commit_text_all textbuf ≠ "" →
      commit_title textbuf ai_summary =
        pyTake ((pySplitlines (commit_text_all textbuf)).headD "") 60) := by
  refine ⟨⟨pyOrStr (pyTake (commit_title textbuf ai_summary) 200) "Нотатка",
      rfl, ?_⟩, ?_, ?_⟩
  · unfold pyOrStr
    split
    · decide
    · calc (pyTake (commit_title textbuf ai_summary) 200).length
          ≤ (commit_title textbuf ai_summary).length :=
            pyTake_length_le_self _ _
        _ ≤ 60 := by
            unfold commit_title
            exact pyTake_length_le _ _
  · intro h
    unfold commit_title
    simp [h]
  · intro h
    unfold commit_title
    simp [h]

/-- C10 witness: the title specification evaluated at the concrete capture
buffer `["first line", "second"]` with an empty AI summary. -/
theorem commit_title_spec_witness :
    (commit_text_all ["first line", "second"] ≠ "" →
      commit_title ["first line", "second"] "" =
        pyTake ((pySplitlines (commit_text_all ["first line", "second"])).headD "")
          60) ∧
    (commit_title ["first line", "second"] "" = "first line") :=
  ⟨(commit_title_spec ["first line", "second"] "" "" [] ⟨none, none, none, none⟩
      none).2.2, by decide⟩

/-- C6: the "Готово" commit step always pops both capture buffers and
returns to the menu; the handler's resulting state and `user_data` do not
depend on whether `create_note` succeeded (the `try`/`except` paths of
src/app.py:704-711 rejoin before the pops), so a failed commit leaves no
buffers to retry from. -/
theorem capture_commit_clears (ud : UserData) (env : BotEnv) :
    ∃ r, stepApp StateId.noteFilesOrText (Msg.text doneText) ud env = some r ∧
      r.state = StateId.menu ∧ r.ud.FILES = none ∧ r.ud.TEXTBUF = none ∧
      r.ud = { ud with FILES := none, TEXTBUF := none } ∧
      r.submitted.isSome = true := by
  exact ⟨_, rfl, rfl, rfl, rfl, rfl, rfl⟩


/-- C3: in the capture state with freshly initialized buffers, sending the
texts "first" and "second", then a photo, then "Готово" commits a note
whose body text is "first\nsecond", whose file list has exactly one entry
and whose title is "first", and returns to the menu. -/
theorem capture_accumulation (env : BotEnv) (ud : UserData)
    (h1 : ud.TEXTBUF = some []) (h2 : ud.FILES = some []) :
    ∃ r sub,
      runMsgs env
        [Msg.text "first", Msg.text "second", Msg.photo (some "p.jpg") none,
         Msg.text doneText] StateId.noteFilesOrText ud = some r ∧
      r.state = StateId.menu ∧ r.submitted = some sub ∧
      sub.text = "first\nsecond" ∧ sub.files.length = 1 ∧
      sub.title = "first" := by
  have eb1 : ¬(("first" : String) = backText) := by decide
  have ed1 : ¬(("first" : String) = doneText) := by decide
  have en1 : ¬(("first" : String) = "") := by decide
  have eb2 : ¬(("second" : String) = backText) := by decide
  have ed2 : ¬(("second" : String) = doneText) := by decide
  have en2 : ¬(("second" : String) = "") := by decide
  have edb : ¬((doneText : String) = backText) := by decide
  have ps1 : pyStrip "first" = "first" := by decide
  have ps2 : pyStrip "second" = "second" := by decide
  have hne : commit_text_all ["first", "second"] ≠ "" := by decide
  have htt : ∀ a : String, commit_title ["first", "second"] a = "first" := by
    intro a
    simp only [commit_title]
    rw [if_pos hne]
    decide
  have hor : ∀ a : String,
      pyOrStr (commit_text_all ["first", "second"]) a = "first\nsecond" := by
    intro a
    simp only [pyOrStr, if_neg hne]
    decide
  have hrun : runMsgs env
      [Msg.text "first", Msg.text "second", Msg.photo (some "p.jpg") none,
       Msg.text doneText] StateId.noteFilesOrText ud =
      some ⟨StateId.menu, { ud with FILES := none, TEXTBUF := none }, [],
        some ⟨commit_title ["first", "second"]
                (env.ai (commit_text_all ["first", "second"])).2,
              pyOrStr (commit_text_all ["first", "second"])
                (env.ai (commit_text_all ["first", "second"])).2,
              parse_hashtags (commit_text_all ["first", "second"]) ++
                (env.ai (commit_text_all ["first", "second"])).1,
              noteIdsArgOf ud.NOTE_IDS,
              [⟨"photo.jpg", tgUrl env.botToken "p.jpg"⟩]⟩⟩ := by
    simp [runMsgs, stepApp, note_files_or_text, eb1, ed1, en1, eb2, ed2, en2,
      edb, ps1, ps2, h1, h2]
  refine ⟨_, ⟨commit_title ["first", "second"]
      (env.ai (commit_text_all ["first", "second"])).2,
    pyOrStr (commit_text_all ["first", "second"])
      (env.ai (commit_text_all ["first", "second"])).2,
    parse_hashtags (commit_text_all ["first", "second"]) ++
      (env.ai (commit_text_all ["first", "second"])).1,
    noteIdsArgOf ud.NOTE_IDS, [⟨"photo.jpg", tgUrl env.botToken "p.jpg"⟩]⟩,
    hrun, rfl, rfl, ?_, rfl, ?_⟩
  · exact hor ((env.ai (commit_text_all ["first", "second"])).2)
  · exact htt ((env.ai (commit_text_all ["first", "second"])).2)


/-- C3 witness: the capture scenario run from the concrete session
`udCapture` in the concrete environment `envDefault`. -/
theorem capture_accumulation_witness :
    ∃ r sub,
      runMsgs envDefault
        [Msg.text "first", Msg.text "second", Msg.photo (some "p.jpg") none,
         Msg.text doneText] StateId.noteFilesOrText udCapture = some r ∧
      r.state = StateId.menu ∧ r.submitted = some sub ∧
      sub.text = "first\nsecond" ∧ sub.files.length = 1 ∧
      sub.title = "first" :=
  capture_accumulation envDefault udCapture rfl rfl

/-- C9: the descent of the note workflow offers the skip sentinel at the
head of every choice list below the category (even when the child query
returns nothing: the query oracle is universally quantified), and choosing
skip never advances the parent: after a skip at level 2 the Topic query
uses the chosen category, after a skip at level 3 the Subtopic query uses
the chosen subcategory if any, else the category, and a skip at level 4
leaves the recorded relations untouched while entering the collecting
state. -/
theorem skip_keeps_parent (env : BotEnv) (ud : UserData) (ids : NoteIds)
    (h : ud.NOTE_IDS = some ids) :
    (∀ c : CatalogNode, ud.L1 = some [c] → pyStrip c.name = c.name →
      c.name ≠ backText →
      ∃ r, stepApp StateId.notePickL1 (Msg.text c.name) ud env = some r ∧
        r.state = StateId.notePickL2 ∧
        r.offered = skipText ::
          (find_nodes_env env "Subcategory" (some c.id)).map
            (fun x => x.name)) ∧
    (∃ r, stepApp StateId.notePickL2 (Msg.text skipText) ud env = some r ∧
      r.state = StateId.notePickL3 ∧ r.ud.NOTE_IDS = some ids ∧
      r.offered = skipText ::
        (find_nodes_env env "Topic" (some ids.cat)).map (fun x => x.name)) ∧
    (∃ r, stepApp StateId.notePickL3 (Msg.text skipText) ud env = some r ∧
      r.state = StateId.notePickL4 ∧ r.ud.NOTE_IDS = some ids ∧
      r.offered = skipText ::
        (find_nodes_env env "Subtopic" (some (pyOrOpt ids.sub ids.cat))).map
          (fun x => x.name)) ∧
    (∃ r, stepApp StateId.notePickL4 (Msg.text skipText) ud env = some r ∧
      r.state = StateId.noteFilesOrText ∧ r.ud.NOTE_IDS = some ids ∧
      r.ud.TEXTBUF = some [] ∧ r.ud.FILES = some []) := by
  have hsb : ¬(skipText = backText) := by decide
  have hss : ¬(skipText ≠ skipText) := by simp
  have hps : pyStrip skipText = skipText := by decide
  refine ⟨?_, ?_, ?_, ?_⟩
  · intro c hL1 hname hnb
    refine ⟨⟨StateId.notePickL2,
      { ud with NOTE_IDS := some ⟨c.id, none, none, none⟩,
                L2 := some (find_nodes_env env "Subcategory" (some c.id)) },
      skipText ::
        (find_nodes_env env "Subcategory" (some c.id)).map (fun x => x.name),
      none⟩, ?_, rfl, rfl⟩
    simp only [stepApp, note_pick_l1, hname]
    rw [if_neg hnb]
    simp [hL1, List.find?]
  · refine ⟨⟨StateId.notePickL3,
      { ud with L3 := some (find_nodes_env env "Topic" (some ids.cat)) },
      skipText ::
        (find_nodes_env env "Topic" (some ids.cat)).map (fun x => x.name),
      none⟩, ?_, rfl, h, rfl⟩
    simp only [stepApp, note_pick_l2, hps]
    rw [if_neg hsb, if_neg hss, h]
  · refine ⟨⟨StateId.notePickL4,
      { ud with
        L4 := some (find_nodes_env env "Subtopic" (some (pyOrOpt ids.sub ids.cat))) },
      skipText ::
        (find_nodes_env env "Subtopic" (some (pyOrOpt ids.sub ids.cat))).map
          (fun x => x.name),
      none⟩, ?_, rfl, h, rfl⟩
    simp only [stepApp, note_pick_l3, hps]
    rw [if_neg hsb, if_neg hss, h]
  · refine ⟨⟨StateId.noteFilesOrText,
      { ud with FILES := some [], TEXTBUF := some [] }, [], none⟩,
      ?_, rfl, h, rfl, rfl⟩
    simp only [stepApp, note_pick_l4, hps]
    rw [if_neg hsb, if_neg hss]


/-- C9 witness: the level-4 skip step evaluated in the concrete session
`udCapture` and environment `envDefault`. -/
theorem skip_keeps_parent_witness :
    ∃ r, stepApp StateId.notePickL4 (Msg.text skipText) udCapture envDefault =
        some r ∧
      r.state = StateId.noteFilesOrText ∧
      r.ud.NOTE_IDS = some ⟨"inbox-id", none, none, none⟩ ∧
      r.ud.TEXTBUF = some [] ∧ r.ud.FILES = some [] :=
  (skip_keeps_parent envDefault udCapture ⟨"inbox-id", none, none, none⟩
    rfl).2.2.2

set_option maxHeartbeats 2000000 in
/-- Back-to-menu from every registered mid-workflow state returns `MENU`;
only the capture state pops (only) its two buffers, every other handler
hands `user_data` back unchanged. -/
theorem back_step_behavior :
    ∀ s ∈ registeredMidStates, ∀ (ud : UserData) (env : BotEnv),
      stepApp s (Msg.text backText) ud env =
        some ⟨StateId.menu,
          (if s = StateId.noteFilesOrText
           then { ud with FILES := none, TEXTBUF := none } else ud),
          [], none⟩ := by
  have hps : pyStrip backText = backText := by decide
  intro s hs ud env
  simp only [registeredMidStates, List.mem_cons, List.not_mem_nil,
    or_false] at hs
  rcases hs with rfl | rfl | rfl | rfl | rfl | rfl | rfl | rfl | rfl | rfl |
    rfl | rfl | rfl | rfl | rfl | rfl | rfl | rfl | rfl | rfl | rfl <;>
    simp [stepApp, add_cat, add_sub, add_sub_name, add_topic, add_topic_next,
      add_topic_name, add_subtopic, add_subtopic_next, add_subtopic_create,
      note_pick_l1, note_pick_l2, note_pick_l3, note_pick_l4,
      note_files_or_text, task_add_title, task_add_due, task_add_project,
      time_add_project, time_add_minutes, time_add_note, search_enter,
      cmd_start, hps]

/-- The tree-building menu branches never enter the collecting state. -/
theorem menu_pick_parent_no_capture (target : StateId) (ud : UserData)
    (env : BotEnv) (ht : target ≠ StateId.noteFilesOrText) :
    (menu_pick_parent target ud env).state ≠ StateId.noteFilesOrText := by
  simp only [menu_pick_parent]
  split
  · simp
  · simpa using ht

/-- The "Нотатка" branch initializes empty buffers whenever it enters the
collecting state. -/
theorem menu_note_capture (ud : UserData) (env : BotEnv) :
    (menu_note ud env).state = StateId.noteFilesOrText →
    (menu_note ud env).ud.TEXTBUF = some [] ∧
    (menu_note ud env).ud.FILES = some [] := by
  simp only [menu_note]
  split
  · intro _; exact ⟨rfl, rfl⟩
  · intro h; exact absurd h (by simp)

/-- The two menu branches that enter the collecting state both initialize
empty capture buffers. -/
theorem menu_router_capture (t : String) (ud : UserData) (env : BotEnv) :
    (menu_router t ud env).state = StateId.noteFilesOrText →
    (menu_router t ud env).ud.TEXTBUF = some [] ∧
    (menu_router t ud env).ud.FILES = some [] := by
  simp only [menu_router]
  by_cases h1 : pyStrip t = "Категорія"
  · rw [if_pos h1]; intro h; exact absurd h (by simp)
  rw [if_neg h1]
  by_cases h2 : pyStrip t = "Підкатегорія"
  · rw [if_pos h2]; intro h
    exact absurd h (menu_pick_parent_no_capture _ _ _ (by simp))
  rw [if_neg h2]
  by_cases h3 : pyStrip t = "Топік"
  · rw [if_pos h3]; intro h
    exact absurd h (menu_pick_parent_no_capture _ _ _ (by simp))
  rw [if_neg h3]
  by_cases h4 : pyStrip t = "Підтопік"
  · rw [if_pos h4]; intro h
    exact absurd h (menu_pick_parent_no_capture _ _ _ (by simp))
  rw [if_neg h4]
  by_cases h5 : pyStrip t = "Нотатка"
  · rw [if_pos h5]; exact menu_note_capture ud env
  rw [if_neg h5]
  by_cases h6 : pyStrip t = "Швидка нотатка"
  · rw [if_pos h6]; intro _; exact ⟨rfl, rfl⟩
  rw [if_neg h6]
  by_cases h7 : pyStrip t = "Задача"
  · rw [if_pos h7]
    split
    · intro h; exact absurd h (by simp)
    · intro h; exact absurd h (by simp)
  rw [if_neg h7]
  by_cases h8 : pyStrip t = "Час"
  · rw [if_pos h8]
    split
    · intro h; exact absurd h (by simp)
    · intro h; exact absurd h (by simp)
  rw [if_neg h8]
  by_cases h9 : pyStrip t = "Статистика"
  · rw [if_pos h9]; intro h; exact absurd h (by simp)
  rw [if_neg h9]
  by_cases h10 : pyStrip t = "Пошук"
  · rw [if_pos h10]; intro h; exact absurd h (by simp)
  rw [if_neg h10]
  by_cases h11 : pyStrip t = "Довідка"
  · rw [if_pos h11]; intro h; exact absurd h (by simp)
  rw [if_neg h11]
  by_cases h12 : pyStrip t = "Скасувати" ∨ pyStrip t = backText
  · rw [if_pos h12]; intro h; exact absurd h (by simp)
  rw [if_neg h12]
  intro h; exact absurd h (by simp)

set_option maxHeartbeats 4000000 in
/-- Every transition into the collecting state from outside re-initializes
the text and file buffers to empty, so any capture session begins with
empty buffers no matter what was left behind. -/
theorem capture_entry_resets :
    ∀ (s : StateId) (m : Msg) (ud : UserData) (env : BotEnv) (r : StepResult),
      stepApp s m ud env = some r → r.state = StateId.noteFilesOrText →
      s ≠ StateId.noteFilesOrText →
      r.ud.TEXTBUF = some [] ∧ r.ud.FILES = some [] := by
  intro s m ud env r hstep hstate hs
  cases s
  case menu =>
    cases m <;> simp only [stepApp] at hstep <;>
      try exact Option.noConfusion hstep
    injection hstep with h2
    subst h2
    exact menu_router_capture _ _ _ hstate
  all_goals cases m
  all_goals simp only [stepApp, add_cat, add_sub, add_sub_name, add_topic,
    add_topic_next, add_topic_name, add_subtopic, add_subtopic_next,
    add_subtopic_name, add_subtopic_create, note_pick_l1, note_pick_l2,
    note_pick_l3, note_pick_l4, task_add_title, task_add_due,
    task_add_project, time_add_project, time_add_minutes, time_add_note,
    search_enter, cmd_start, startQuickCapture] at hstep
  all_goals try exact (hs rfl).elim
  all_goals try exact Option.noConfusion hstep
  all_goals repeat' split at hstep
  all_goals try exact Option.noConfusion hstep
  all_goals injection hstep with h2
  all_goals subst h2
  all_goals simp_all


/-- C5 counterexample: from the mid-workflow state `ADD_SUB` the
back-to-menu signal returns to the menu but leaves `user_data` (here the
stored `L1` list) fully intact — no buffer is discarded — and in the state
`ADD_SUBTOPIC + 200`, which `add_subtopic_next` hands out but `build_app`
never registers, the signal is not handled at all. -/
theorem back_not_full_reset :
    stepApp StateId.addSub (Msg.text backText)
        { emptyUD with L1 := some [⟨"id1", "Work", "Category", none⟩] }
        envDefault =
      some ⟨StateId.menu,
        { emptyUD with L1 := some [⟨"id1", "Work", "Category", none⟩] },
        [], none⟩ ∧
    ({ emptyUD with L1 := some [⟨"id1", "Work", "Category", none⟩] } :
      UserData) ≠ emptyUD ∧
    stepApp StateId.addSubtopicName (Msg.text backText)
      { emptyUD with L1 := some [⟨"id1", "Work", "Category", none⟩] }
      envDefault = none := by
  decide

/-- C5 amended: from every mid-workflow state that `build_app` registers,
the back-to-menu signal transitions to `Menu`; the handlers do not clear
the session data (only the capture state pops its two buffers; the full
`user_data.clear()` happens only in `menu_router` itself), yet a capture
session started afterwards always begins with empty text and file buffers,
because every transition into the collecting state re-initializes them. -/
theorem back_to_menu_resets :
    (∀ s ∈ registeredMidStates, ∀ (ud : UserData) (env : BotEnv),
      stepApp s (Msg.text backText) ud env =
        some ⟨StateId.menu,
          (if s = StateId.noteFilesOrText
           then { ud with FILES := none, TEXTBUF := none } else ud),
          [], none⟩) ∧
    (∀ (s : StateId) (m : Msg) (ud : UserData) (env : BotEnv)
        (r : StepResult),
      stepApp s m ud env = some r → r.state = StateId.noteFilesOrText →
      s ≠ StateId.noteFilesOrText →
      r.ud.TEXTBUF = some [] ∧ r.ud.FILES = some []) :=
  ⟨back_step_behavior, capture_entry_resets⟩

/-- C5 witness: the back step evaluated at the registered state `TASK_ADD_DUE`
with a concrete session. -/
theorem back_to_menu_resets_witness :
    stepApp StateId.taskDue (Msg.text backText) udCapture envDefault =
      some ⟨StateId.menu,
        (if StateId.taskDue = StateId.noteFilesOrText
         then { udCapture with FILES := none, TEXTBUF := none }
         else udCapture), [], none⟩ :=
  back_to_menu_resets.1 StateId.taskDue (by decide) udCapture envDefault

end App
